import Mathlib

/-!
Shallow embedding of `fs/sdcardfs/super.c` (sdcardfs stackable filesystem,
kernel 3.18 tree): the capacity-reservation statfs filter, the remount flag
whitelist, the inode alloc/evict lifecycle, and the unlink/rename view
propagation engine, together with theorems settling the specification claims.

External collaborators (credential substitution, kmalloc, do_unlinkat,
sys_renameat2, iput) are modelled as oracles/booleans; each call the code makes
to them is recorded in an explicit event trace so that resource-balance and
attempted-projection properties can be stated.
-/

/-- Mount classification type. The enum lives in `sdcardfs.h` (not part of the
studied file); the spec's data model lists the values {NONE, DEFAULT, READ,
WRITE, FULL-or-other}. The code in `super.c` only ever compares against
NONE, DEFAULT, READ and WRITE. -/
inductive type_t
  | TYPE_NONE
  | TYPE_DEFAULT
  | TYPE_READ
  | TYPE_WRITE
  | TYPE_FULL
deriving DecidableEq, Repr

/-- Per-mount options block (`struct sdcardfs_mount_options`). Fields as in the
spec's data model; only `label`, `type` and `reserved_mb` matter for the
operations embedded here. -/
structure sdcardfs_mount_options where
  fs_low_uid : Nat
  fs_low_gid : Nat
  sdfs_gid : Nat
  sdfs_mask : Nat
  multi_user : Bool
  reserved_mb : Nat
  label : String
  type : type_t
deriving DecidableEq, Repr

/-- Statistics buffer (`struct kstatfs`). Modelled from the spec: block counts
are mathematical integers — the spec states the total-block subtraction is
"allowed to go negative ... not guarded". -/
structure kstatfs where
  f_type : Nat
  f_bsize : Nat
  f_blocks : Int
  f_bfree : Int
  f_bavail : Int
deriving DecidableEq, Repr

/-- The overlay's own filesystem magic written into `f_type`. -/
def SDCARDFS_SUPER_MAGIC : Nat := 0xb550ca10

/-- `sdcardfs_statfs`, lines 57-91 of `super.c`. `lower_err` and `buf` are the
result of the lower `vfs_statfs` call (an external collaborator): the code
stores its status in `err`, applies the reservation adjustment when
`reserved_mb` is nonzero (returning `-EINVAL` early when the reported block
size is zero), tags `f_type` with the overlay magic, and returns `err`. -/
def sdcardfs_statfs (sbi : sdcardfs_mount_options) (lower_err : Int)
    (buf : kstatfs) : Int × kstatfs :=
  if sbi.reserved_mb ≠ 0 then
    if buf.f_bsize = 0 then
      (-22, buf)
    else
      let min_blocks : Nat := sbi.reserved_mb * 1024 * 1024 / buf.f_bsize
      let blocks := buf.f_blocks - (min_blocks : Int)
      let bavail :=
        if (min_blocks : Int) < buf.f_bavail then buf.f_bavail - (min_blocks : Int)
        else 0
      (lower_err,
       { buf with
          f_blocks := blocks
          f_bavail := bavail
          f_bfree := bavail
          f_type := SDCARDFS_SUPER_MAGIC })
  else
    (lower_err, { buf with f_type := SDCARDFS_SUPER_MAGIC })

/-- `MS_RDONLY` numeric mount flag (kernel ABI constant). -/
def MS_RDONLY : Nat := 1

/-- `MS_MANDLOCK` numeric mount flag (kernel ABI constant). -/
def MS_MANDLOCK : Nat := 64

/-- `MS_SILENT` numeric mount flag (kernel ABI constant). -/
def MS_SILENT : Nat := 32768

/-- The whitelisted remount flag set `MS_RDONLY | MS_MANDLOCK | MS_SILENT`. -/
def REMOUNT_ALLOWED : Nat := MS_RDONLY ||| MS_MANDLOCK ||| MS_SILENT

/-- `sdcardfs_remount_fs`, lines 97-113 of `super.c`. `*flags & ~(MS_RDONLY |
MS_MANDLOCK | MS_SILENT)` on a 32-bit flag word is modelled as a bitwise and
with the 32-bit complement of the whitelist. The function never touches the
mount options; the options block is threaded through unchanged to make that
explicit. -/
def sdcardfs_remount_fs (opts : sdcardfs_mount_options) (flags : Nat) :
    Int × sdcardfs_mount_options :=
  if flags &&& (4294967295 ^^^ REMOUNT_ALLOWED) ≠ 0 then (-22, opts)
  else (0, opts)

/-- Stacked inode object (`struct sdcardfs_inode_info`): the bound lower inode
(identified abstractly by a `Nat`; `none` models a NULL pointer) plus the
`i_version` field set by `sdcardfs_alloc_inode`. -/
structure sdcardfs_inode_info where
  lower_inode : Option Nat
  i_version : Nat
deriving DecidableEq, Repr

/-- `sdcardfs_lower_inode`: read the stored backing-inode binding. -/
def sdcardfs_lower_inode (i : sdcardfs_inode_info) : Option Nat :=
  i.lower_inode

/-- `sdcardfs_set_lower_inode`: store a backing-inode binding. -/
def sdcardfs_set_lower_inode (i : sdcardfs_inode_info) (v : Option Nat) :
    sdcardfs_inode_info :=
  { i with lower_inode := v }

/-- `sdcardfs_alloc_inode`, lines 136-149: on allocation success the
stacked-only portion is zeroed (`lower_inode = NULL`) and `i_version` set
to 1; on `kmem_cache_alloc` failure NULL is returned. -/
def sdcardfs_alloc_inode (alloc_ok : Bool) : Option sdcardfs_inode_info :=
  if alloc_ok then some { lower_inode := none, i_version := 1 } else none

/-- `sdcardfs_evict_inode`, lines 121-134: read the lower inode, clear the
binding, then `iput` the value that was read. The second component is the list
of `iput` calls made (argument included). -/
def sdcardfs_evict_inode (i : sdcardfs_inode_info) :
    sdcardfs_inode_info × List (Option Nat) :=
  (sdcardfs_set_lower_inode i none, [sdcardfs_lower_inode i])

/-- `sdcardfs_destroy_inode`, lines 151-154: returns the object to the cache
and performs no `iput`. -/
def sdcardfs_destroy_inode (_ : sdcardfs_inode_info) : List (Option Nat) :=
  []

/-- One observable external call made by a propagation function. Buffer
identifiers: 1 = `propagate_path`/`propagate_old_path`, 2 =
`propagete_new_path`. -/
inductive fs_event
  | override_fsids
  | revert_fsids
  | kmalloc_ok (buf : Nat)
  | kmalloc_fail
  | kfree (buf : Nat)
  | do_unlink (path : String)
  | do_rename (oldpath : String) (newpath : String)
deriving DecidableEq, Repr

/-- `sdcardfs_propagate_unlink`, lines 184-231 of `super.c`. `do_unlinkat` is
the oracle giving the status of the external delete primitive at each path;
`cred_ok` models whether `override_fsids(0,0)` succeeds and `alloc_ok` whether
the `kmalloc(PATH_MAX)` succeeds. Returns the function's return status paired
with the trace of external calls in program order. -/
def sdcardfs_propagate_unlink (sbi : sdcardfs_mount_options)
    (do_unlinkat : String → Int) (cred_ok alloc_ok : Bool)
    (pathname : String) : Int × List fs_event :=
  if cred_ok = false then
    (-12, [])
  else if alloc_ok = false then
    (-12, [fs_event.override_fsids, fs_event.kmalloc_fail, fs_event.revert_fsids])
  else
    let path1 := "/mnt/runtime/default/" ++ sbi.label ++ pathname
    let path2 := "/mnt/runtime/read/" ++ sbi.label ++ pathname
    let path3 := "/mnt/runtime/write/" ++ sbi.label ++ pathname
    let path4 := "/storage/" ++ sbi.label ++ pathname
    let ret0 : Int := 0
    let evs0 := [fs_event.override_fsids, fs_event.kmalloc_ok 1]
    let c1 := sbi.type ≠ type_t.TYPE_NONE ∧ sbi.type ≠ type_t.TYPE_DEFAULT
    let ret1 := if c1 then do_unlinkat path1 else ret0
    let evs1 := if c1 then evs0 ++ [fs_event.do_unlink path1] else evs0
    let c2 := sbi.type ≠ type_t.TYPE_NONE ∧ sbi.type ≠ type_t.TYPE_READ
    let ret2 := if c2 then do_unlinkat path2 else ret1
    let evs2 := if c2 then evs1 ++ [fs_event.do_unlink path2] else evs1
    let c3 := sbi.type ≠ type_t.TYPE_NONE ∧ sbi.type ≠ type_t.TYPE_WRITE
    let ret3 := if c3 then do_unlinkat path3 else ret2
    let evs3 := if c3 then evs2 ++ [fs_event.do_unlink path3] else evs2
    let c4 := sbi.type ≠ type_t.TYPE_NONE
    let ret4 := if c4 then do_unlinkat path4 else ret3
    let evs4 := if c4 then evs3 ++ [fs_event.do_unlink path4] else evs3
    (ret4, evs4 ++ [fs_event.revert_fsids, fs_event.kfree 1])

/-- `sdcardfs_propagate_rename`, lines 233-298 of `super.c`. `sys_renameat2`
(with `RENAME_NOPROPAGATE`) is the oracle on the old/new path pair; `cred_ok`,
`alloc1_ok`, `alloc2_ok` model `override_fsids` and the two `kmalloc`s. -/
def sdcardfs_propagate_rename (sbi : sdcardfs_mount_options)
    (sys_renameat2 : String → String → Int) (cred_ok alloc1_ok alloc2_ok : Bool)
    (oldname newname : String) : Int × List fs_event :=
  if cred_ok = false then
    (-12, [])
  else if alloc1_ok = false then
    (-12, [fs_event.override_fsids, fs_event.kmalloc_fail, fs_event.revert_fsids])
  else if alloc2_ok = false then
    (-12, [fs_event.override_fsids, fs_event.kmalloc_ok 1, fs_event.kmalloc_fail,
           fs_event.revert_fsids, fs_event.kfree 1])
  else
    let old1 := "/mnt/runtime/default/" ++ sbi.label ++ oldname
    let new1 := "/mnt/runtime/default/" ++ sbi.label ++ newname
    let old2 := "/mnt/runtime/read/" ++ sbi.label ++ oldname
    let new2 := "/mnt/runtime/read/" ++ sbi.label ++ newname
    let old3 := "/mnt/runtime/write/" ++ sbi.label ++ oldname
    let new3 := "/mnt/runtime/write/" ++ sbi.label ++ newname
    let old4 := "/storage/" ++ sbi.label ++ oldname
    let new4 := "/storage/" ++ sbi.label ++ newname
    let ret0 : Int := 0
    let evs0 := [fs_event.override_fsids, fs_event.kmalloc_ok 1, fs_event.kmalloc_ok 2]
    let c1 := sbi.type ≠ type_t.TYPE_NONE ∧ sbi.type ≠ type_t.TYPE_DEFAULT
    let ret1 := if c1 then sys_renameat2 old1 new1 else ret0
    let evs1 := if c1 then evs0 ++ [fs_event.do_rename old1 new1] else evs0
    let c2 := sbi.type ≠ type_t.TYPE_NONE ∧ sbi.type ≠ type_t.TYPE_READ
    let ret2 := if c2 then sys_renameat2 old2 new2 else ret1
    let evs2 := if c2 then evs1 ++ [fs_event.do_rename old2 new2] else evs1
    let c3 := sbi.type ≠ type_t.TYPE_NONE ∧ sbi.type ≠ type_t.TYPE_WRITE
    let ret3 := if c3 then sys_renameat2 old3 new3 else ret2
    let evs3 := if c3 then evs2 ++ [fs_event.do_rename old3 new3] else evs2
    let c4 := sbi.type ≠ type_t.TYPE_NONE
    let ret4 := if c4 then sys_renameat2 old4 new4 else ret3
    let evs4 := if c4 then evs3 ++ [fs_event.do_rename old4 new4] else evs3
    (ret4, evs4 ++ [fs_event.revert_fsids, fs_event.kfree 1, fs_event.kfree 2])

/-- Paths on which the delete primitive was attempted, in order. -/
def unlink_attempts (evs : List fs_event) : List String :=
  evs.filterMap fun e =>
    match e with
    | fs_event.do_unlink p => some p
    | _ => none

/-- Old/new path pairs on which the rename primitive was attempted, in order. -/
def rename_attempts (evs : List fs_event) : List (String × String) :=
  evs.filterMap fun e =>
    match e with
    | fs_event.do_rename a b => some (a, b)
    | _ => none

/-- Identifiers of successfully allocated path buffers, in order. -/
def alloc_ids (evs : List fs_event) : List Nat :=
  evs.filterMap fun e =>
    match e with
    | fs_event.kmalloc_ok n => some n
    | _ => none

/-- Identifiers of freed path buffers, in order. -/
def free_ids (evs : List fs_event) : List Nat :=
  evs.filterMap fun e =>
    match e with
    | fs_event.kfree n => some n
    | _ => none

/-- Number of `override_fsids` successes in a trace. -/
def count_override (evs : List fs_event) : Nat :=
  (evs.filter fun e =>
    match e with
    | fs_event.override_fsids => true
    | _ => false).length

/-- Number of `revert_fsids` calls in a trace. -/
def count_revert (evs : List fs_event) : Nat :=
  (evs.filter fun e =>
    match e with
    | fs_event.revert_fsids => true
    | _ => false).length

/-- The spec's §3 projection table, stated from the spec's words: the list of
physical root strings whose activation condition holds for a given mount type,
in the table's fixed order. Used as the specification side of the refinement
claims about which projections the engine attempts. -/
def spec_projection_roots (t : type_t) : List String :=
  (if t ≠ type_t.TYPE_NONE ∧ t ≠ type_t.TYPE_DEFAULT then ["/mnt/runtime/default/"] else []) ++
  (if t ≠ type_t.TYPE_NONE ∧ t ≠ type_t.TYPE_READ then ["/mnt/runtime/read/"] else []) ++
  (if t ≠ type_t.TYPE_NONE ∧ t ≠ type_t.TYPE_WRITE then ["/mnt/runtime/write/"] else []) ++
  (if t ≠ type_t.TYPE_NONE then ["/storage/"] else [])

/-- Sample options block with `type = TYPE_NONE`. -/
def opts_none : sdcardfs_mount_options :=
  { fs_low_uid := 0, fs_low_gid := 0, sdfs_gid := 0, sdfs_mask := 0,
    multi_user := false, reserved_mb := 0, label := "emulated",
    type := type_t.TYPE_NONE }

/-- Sample options block with `type = TYPE_WRITE`. -/
def opts_write : sdcardfs_mount_options :=
  { opts_none with label := "emulated", type := type_t.TYPE_WRITE }

/-- Sample options block with a 2 MB reservation. -/
def opts_reserved : sdcardfs_mount_options :=
  { opts_none with reserved_mb := 2 }

/-- Sample lower statfs buffer (block size 1024). -/
def buf_sample : kstatfs :=
  { f_type := 61267, f_bsize := 1024, f_blocks := 10000, f_bfree := 5000,
    f_bavail := 100 }

/-- Sample lower statfs buffer reporting block size 0. -/
def buf_zero_bsize : kstatfs :=
  { f_type := 61267, f_bsize := 0, f_blocks := 10000, f_bfree := 5000,
    f_bavail := 4000 }

/-- Claim C1: with credential substitution and buffer allocation succeeding,
the projections attempted by `sdcardfs_propagate_unlink` and
`sdcardfs_propagate_rename` are exactly those of the spec's §3 table, in the
table's fixed order, each path being root ++ label ++ relative path (and for
rename, the old/new pair under the same root). -/
theorem claim_C1 (sbi : sdcardfs_mount_options) (dou : String → Int)
    (ren : String → String → Int) (pathname oldname newname : String) :
    unlink_attempts (sdcardfs_propagate_unlink sbi dou true true pathname).2 =
      (spec_projection_roots sbi.type).map (fun r => r ++ sbi.label ++ pathname) ∧
    rename_attempts (sdcardfs_propagate_rename sbi ren true true true oldname newname).2 =
      (spec_projection_roots sbi.type).map
        (fun r => (r ++ sbi.label ++ oldname, r ++ sbi.label ++ newname)) := by
  obtain ⟨u, g, sg, sm, mu, rm, label, t⟩ := sbi
  cases t <;> exact ⟨rfl, rfl⟩

/-- Claim C2 counterexample: at `type = TYPE_WRITE` the engine attempts THREE
projections — default, read and storage — not the two (default and storage)
the claim asserts; the `/mnt/runtime/read/...` projection is attempted, not
skipped, because the code's guard for it only excludes NONE and READ. -/
theorem claim_C2_counterexample :
    unlink_attempts (sdcardfs_propagate_unlink opts_write (fun _ => 0) true true "/a").2 =
      ["/mnt/runtime/default/emulated/a", "/mnt/runtime/read/emulated/a",
       "/storage/emulated/a"] ∧
    unlink_attempts (sdcardfs_propagate_unlink opts_write (fun _ => 0) true true "/a").2 ≠
      ["/mnt/runtime/default/emulated/a", "/storage/emulated/a"] := by
  constructor
  · rfl
  · decide

/-- Claim C2 (amended): for `type = TYPE_WRITE` with successful allocations,
exactly three projections are attempted — `/mnt/runtime/default/...`,
`/mnt/runtime/read/...` and `/storage/...` — and only the
`/mnt/runtime/write/...` projection is skipped, per the table in §3. -/
theorem claim_C2 (sbi : sdcardfs_mount_options) (dou : String → Int)
    (ren : String → String → Int) (pathname oldname newname : String)
    (h : sbi.type = type_t.TYPE_WRITE) :
    unlink_attempts (sdcardfs_propagate_unlink sbi dou true true pathname).2 =
      ["/mnt/runtime/default/" ++ sbi.label ++ pathname,
       "/mnt/runtime/read/" ++ sbi.label ++ pathname,
       "/storage/" ++ sbi.label ++ pathname] ∧
    rename_attempts (sdcardfs_propagate_rename sbi ren true true true oldname newname).2 =
      [("/mnt/runtime/default/" ++ sbi.label ++ oldname,
        "/mnt/runtime/default/" ++ sbi.label ++ newname),
       ("/mnt/runtime/read/" ++ sbi.label ++ oldname,
        "/mnt/runtime/read/" ++ sbi.label ++ newname),
       ("/storage/" ++ sbi.label ++ oldname,
        "/storage/" ++ sbi.label ++ newname)] := by
  obtain ⟨u, g, sg, sm, mu, rm, label, t⟩ := sbi
  have ht : t = type_t.TYPE_WRITE := h
  subst ht
  exact ⟨rfl, rfl⟩

/-- Claim C2 witness: the amended claim at a concrete WRITE-type mount. -/
theorem claim_C2_witness :
    unlink_attempts (sdcardfs_propagate_unlink opts_write (fun _ => 0) true true "/b").2 =
      ["/mnt/runtime/default/" ++ opts_write.label ++ "/b",
       "/mnt/runtime/read/" ++ opts_write.label ++ "/b",
       "/storage/" ++ opts_write.label ++ "/b"] :=
  (claim_C2 opts_write (fun _ => 0) (fun _ _ => 0) "/b" "/o" "/n" rfl).1

/-- Claim C3: with `reserved_mb = R > 0` and lower block size `B > 0`, the
adjusted statistics have total = lower total − R*1MiB/B, available =
max(0, lower available − R*1MiB/B), and free = the clamped available value. -/
theorem claim_C3 (sbi : sdcardfs_mount_options) (lower_err : Int)
    (buf : kstatfs) (hR : 0 < sbi.reserved_mb) (hB : 0 < buf.f_bsize) :
    (sdcardfs_statfs sbi lower_err buf).2.f_blocks =
      buf.f_blocks - ((sbi.reserved_mb * 1024 * 1024 / buf.f_bsize : Nat) : Int) ∧
    (sdcardfs_statfs sbi lower_err buf).2.f_bavail =
      max 0 (buf.f_bavail - ((sbi.reserved_mb * 1024 * 1024 / buf.f_bsize : Nat) : Int)) ∧
    (sdcardfs_statfs sbi lower_err buf).2.f_bfree =
      (sdcardfs_statfs sbi lower_err buf).2.f_bavail := by
  have hR' : sbi.reserved_mb ≠ 0 := Nat.pos_iff_ne_zero.mp hR
  have hB' : buf.f_bsize ≠ 0 := Nat.pos_iff_ne_zero.mp hB
  simp only [sdcardfs_statfs, if_pos hR', if_neg (by exact hB' : ¬buf.f_bsize = 0)]
  refine ⟨by trivial, ?_, by trivial⟩
  dsimp only
  split <;> omega

/-- Claim C3 witness: concrete evaluation with R = 2, B = 1024. -/
theorem claim_C3_witness :
    0 < opts_reserved.reserved_mb ∧ 0 < buf_sample.f_bsize ∧
    ((sdcardfs_statfs opts_reserved 0 buf_sample).2.f_blocks =
      buf_sample.f_blocks -
        ((opts_reserved.reserved_mb * 1024 * 1024 / buf_sample.f_bsize : Nat) : Int) ∧
     (sdcardfs_statfs opts_reserved 0 buf_sample).2.f_bavail =
      max 0 (buf_sample.f_bavail -
        ((opts_reserved.reserved_mb * 1024 * 1024 / buf_sample.f_bsize : Nat) : Int)) ∧
     (sdcardfs_statfs opts_reserved 0 buf_sample).2.f_bfree =
      (sdcardfs_statfs opts_reserved 0 buf_sample).2.f_bavail) :=
  ⟨by decide, by decide, claim_C3 opts_reserved 0 buf_sample (by decide) (by decide)⟩

/-- Claim C4: with successful allocations, the status returned by each
propagation function is the primitive's status on the LAST attempted
projection (and 0 when no projection is attempted); earlier projections'
statuses — hence earlier failures — never influence the returned status, since
the equality holds for every status oracle. -/
theorem claim_C4 (sbi : sdcardfs_mount_options) (dou : String → Int)
    (ren : String → String → Int) (pathname oldname newname : String) :
    (sdcardfs_propagate_unlink sbi dou true true pathname).1 =
      ((unlink_attempts (sdcardfs_propagate_unlink sbi dou true true pathname).2).map
        dou).getLastD 0 ∧
    (sdcardfs_propagate_rename sbi ren true true true oldname newname).1 =
      ((rename_attempts
          (sdcardfs_propagate_rename sbi ren true true true oldname newname).2).map
        (fun pr => ren pr.1 pr.2)).getLastD 0 := by
  obtain ⟨u, g, sg, sm, mu, rm, label, t⟩ := sbi
  cases t <;> exact ⟨rfl, rfl⟩

/-- Claim C5: on every exit path — including both out-of-memory exits — each
successful `override_fsids` is paired with exactly one `revert_fsids`, and the
multiset (in fact list) of successfully allocated path buffers equals the list
of freed buffers: no credential context or buffer outlives the call. -/
theorem claim_C5 (sbi : sdcardfs_mount_options) (dou : String → Int)
    (ren : String → String → Int) (cred_ok alloc_ok a1 a2 : Bool)
    (pathname oldname newname : String) :
    (count_override (sdcardfs_propagate_unlink sbi dou cred_ok alloc_ok pathname).2 =
       count_revert (sdcardfs_propagate_unlink sbi dou cred_ok alloc_ok pathname).2 ∧
     count_override (sdcardfs_propagate_unlink sbi dou cred_ok alloc_ok pathname).2 =
       (if cred_ok then 1 else 0) ∧
     alloc_ids (sdcardfs_propagate_unlink sbi dou cred_ok alloc_ok pathname).2 =
       free_ids (sdcardfs_propagate_unlink sbi dou cred_ok alloc_ok pathname).2) ∧
    (count_override (sdcardfs_propagate_rename sbi ren cred_ok a1 a2 oldname newname).2 =
       count_revert (sdcardfs_propagate_rename sbi ren cred_ok a1 a2 oldname newname).2 ∧
     count_override (sdcardfs_propagate_rename sbi ren cred_ok a1 a2 oldname newname).2 =
       (if cred_ok then 1 else 0) ∧
     alloc_ids (sdcardfs_propagate_rename sbi ren cred_ok a1 a2 oldname newname).2 =
       free_ids (sdcardfs_propagate_rename sbi ren cred_ok a1 a2 oldname newname).2) := by
  obtain ⟨u, g, sg, sm, mu, rm, label, t⟩ := sbi
  cases cred_ok <;> cases alloc_ok <;> cases a1 <;> cases a2 <;> cases t <;>
    exact ⟨⟨rfl, rfl, rfl⟩, ⟨rfl, rfl, rfl⟩⟩

/-- Claim C6: for `type = TYPE_NONE` no projection is attempted on any
allocation outcome, and with successful allocations both propagation
functions return status 0. -/
theorem claim_C6 (sbi : sdcardfs_mount_options) (dou : String → Int)
    (ren : String → String → Int) (cred_ok alloc_ok a1 a2 : Bool)
    (pathname oldname newname : String) (h : sbi.type = type_t.TYPE_NONE) :
    unlink_attempts (sdcardfs_propagate_unlink sbi dou cred_ok alloc_ok pathname).2 = [] ∧
    rename_attempts (sdcardfs_propagate_rename sbi ren cred_ok a1 a2 oldname newname).2 = [] ∧
    (sdcardfs_propagate_unlink sbi dou true true pathname).1 = 0 ∧
    (sdcardfs_propagate_rename sbi ren true true true oldname newname).1 = 0 := by
  obtain ⟨u, g, sg, sm, mu, rm, label, t⟩ := sbi
  have ht : t = type_t.TYPE_NONE := h
  subst ht
  cases cred_ok <;> cases alloc_ok <;> cases a1 <;> cases a2 <;>
    exact ⟨rfl, rfl, rfl, rfl⟩

/-- Claim C6 witness: concrete NONE-type mount, failing primitive oracle. -/
theorem claim_C6_witness :
    unlink_attempts (sdcardfs_propagate_unlink opts_none (fun _ => -2) true true "/f").2 = [] ∧
    (sdcardfs_propagate_unlink opts_none (fun _ => -2) true true "/f").1 = 0 :=
  ⟨(claim_C6 opts_none (fun _ => -2) (fun _ _ => -2) true true true true "/f" "/o" "/n" rfl).1,
   (claim_C6 opts_none (fun _ => -2) (fun _ _ => -2) true true true true "/f" "/o" "/n" rfl).2.2.1⟩

/-- Claim C7: eviction clears the backing-inode binding and performs exactly
one `iput`, whose argument is the binding read before clearing; across
allocate→bind→evict→release the backing reference is released exactly once
(`sdcardfs_destroy_inode` performs no further `iput`), and a failed allocation
produces no object and hence no binding. -/
theorem claim_C7 (b : Nat) (i : sdcardfs_inode_info) :
    (sdcardfs_evict_inode i).2 = [sdcardfs_lower_inode i] ∧
    (sdcardfs_evict_inode i).1.lower_inode = none ∧
    sdcardfs_alloc_inode false = none ∧
    (∃ i0, sdcardfs_alloc_inode true = some i0 ∧ i0.lower_inode = none ∧
      sdcardfs_evict_inode (sdcardfs_set_lower_inode i0 (some b)) =
        ({ lower_inode := none, i_version := 1 }, [some b]) ∧
      sdcardfs_destroy_inode
        (sdcardfs_evict_inode (sdcardfs_set_lower_inode i0 (some b))).1 = []) :=
  ⟨rfl, rfl, rfl, ⟨{ lower_inode := none, i_version := 1 }, rfl, rfl, rfl, rfl⟩⟩

/-- Bits 0..31 of the 32-bit complement used by `sdcardfs_remount_fs` are the
negation of the corresponding whitelist bits. -/
theorem remount_compl_bits :
    ∀ i : Fin 32,
      (4294967295 ^^^ REMOUNT_ALLOWED).testBit i.val =
        !REMOUNT_ALLOWED.testBit i.val := by
  decide

/-- A natural below `2 ^ 32` has no set bit at position 32 or above. -/
theorem testBit_high_false (n j : Nat) (hn : n < 2 ^ 32) (hj : 32 ≤ j) :
    n.testBit j = false :=
  Nat.testBit_eq_false_of_lt
    (lt_of_lt_of_le hn (Nat.pow_le_pow_right (by norm_num) hj))

/-- Claim C8: for a 32-bit flag word, any set bit outside the whitelist
{MS_RDONLY, MS_MANDLOCK, MS_SILENT} makes `sdcardfs_remount_fs` return
`-EINVAL` with the options unchanged; a flag word entirely inside the
whitelist yields success; and on every input the options come back
unchanged. -/
theorem claim_C8 (opts : sdcardfs_mount_options) (flags : Nat)
    (h32 : flags < 2 ^ 32) :
    ((∃ i, flags.testBit i = true ∧ REMOUNT_ALLOWED.testBit i = false) →
      sdcardfs_remount_fs opts flags = (-22, opts)) ∧
    (flags &&& REMOUNT_ALLOWED = flags →
      sdcardfs_remount_fs opts flags = (0, opts)) ∧
    (sdcardfs_remount_fs opts flags).2 = opts := by
  have hC : (4294967295 ^^^ REMOUNT_ALLOWED) < 2 ^ 32 := by decide
  refine ⟨?_, ?_, ?_⟩
  · rintro ⟨i, hf, hm⟩
    have hi : i < 32 := by
      by_contra hge
      rw [testBit_high_false flags i h32 (le_of_not_lt hge)] at hf
      exact Bool.false_ne_true hf
    have hCb : (4294967295 ^^^ REMOUNT_ALLOWED).testBit i = true := by
      have := remount_compl_bits ⟨i, hi⟩
      rw [show (⟨i, hi⟩ : Fin 32).val = i from rfl, hm] at this
      simpa using this
    have hne : flags &&& (4294967295 ^^^ REMOUNT_ALLOWED) ≠ 0 := by
      intro h0
      have := congrArg (fun n => Nat.testBit n i) h0
      simp only [Nat.testBit_and, Nat.zero_testBit, hf, hCb, Bool.and_self] at this
      exact Bool.noConfusion this
    simp [sdcardfs_remount_fs, hne]
  · intro hsub
    have h0 : flags &&& (4294967295 ^^^ REMOUNT_ALLOWED) = 0 := by
      apply Nat.eq_of_testBit_eq
      intro i
      rw [Nat.testBit_and, Nat.zero_testBit]
      cases hfi : flags.testBit i with
      | false => simp
      | true =>
        have hm : REMOUNT_ALLOWED.testBit i = true := by
          have := congrArg (fun n => Nat.testBit n i) hsub
          simp only [Nat.testBit_and, hfi, Bool.true_and] at this
          exact this
        have hi : i < 32 := by
          by_contra hge
          rw [testBit_high_false flags i h32 (le_of_not_lt hge)] at hfi
          exact Bool.false_ne_true hfi
        have hc := remount_compl_bits ⟨i, hi⟩
        rw [show (⟨i, hi⟩ : Fin 32).val = i from rfl, hm] at hc
        simp [hc]
    simp [sdcardfs_remount_fs, h0]
  · unfold sdcardfs_remount_fs
    split <;> rfl

/-- Claim C8 witness: flag bit 1 (outside the whitelist) is rejected with the
options unchanged; `MS_RDONLY | MS_SILENT` (inside the whitelist) succeeds. -/
theorem claim_C8_witness :
    sdcardfs_remount_fs opts_none 2 = (-22, opts_none) ∧
    sdcardfs_remount_fs opts_none 32769 = (0, opts_none) :=
  ⟨(claim_C8 opts_none 2 (by norm_num)).1 ⟨1, by decide, by decide⟩,
   (claim_C8 opts_none 32769 (by norm_num)).2.1 (by decide)⟩

/-- Claim C9: with a positive reservation and a lower-reported block size of
zero, `sdcardfs_statfs` fails with `-EINVAL`. -/
theorem claim_C9 (sbi : sdcardfs_mount_options) (lower_err : Int)
    (buf : kstatfs) (hR : 0 < sbi.reserved_mb) (hB : buf.f_bsize = 0) :
    (sdcardfs_statfs sbi lower_err buf).1 = -22 := by
  have hR' : sbi.reserved_mb ≠ 0 := Nat.pos_iff_ne_zero.mp hR
  simp [sdcardfs_statfs, hR', hB]

/-- Claim C9 witness: concrete mount with R = 2 and a zero block size. -/
theorem claim_C9_witness :
    0 < opts_reserved.reserved_mb ∧ buf_zero_bsize.f_bsize = 0 ∧
    (sdcardfs_statfs opts_reserved 7 buf_zero_bsize).1 = -22 :=
  ⟨by decide, rfl, claim_C9 opts_reserved 7 buf_zero_bsize (by decide) rfl⟩

/-- Claim C10: `sdcardfs_statfs` tags `f_type` with the overlay magic on every
return path except the zero-block-size `-EINVAL` path; a failing lower query's
status is propagated verbatim while the buffer is still tagged, and — when the
reservation is positive and the block size nonzero — still adjusted; on the
zero-block-size path the function returns `-EINVAL` with the buffer untouched,
`f_type` left as the lower filesystem reported. -/
theorem claim_C10 (sbi : sdcardfs_mount_options) (lower_err : Int)
    (buf : kstatfs) :
    (sbi.reserved_mb = 0 →
      sdcardfs_statfs sbi lower_err buf =
        (lower_err, { buf with f_type := SDCARDFS_SUPER_MAGIC })) ∧
    (sbi.reserved_mb ≠ 0 → buf.f_bsize ≠ 0 →
      ((sdcardfs_statfs sbi lower_err buf).1 = lower_err ∧
       (sdcardfs_statfs sbi lower_err buf).2.f_type = SDCARDFS_SUPER_MAGIC ∧
       (sdcardfs_statfs sbi lower_err buf).2.f_blocks =
         buf.f_blocks - ((sbi.reserved_mb * 1024 * 1024 / buf.f_bsize : Nat) : Int) ∧
       (sdcardfs_statfs sbi lower_err buf).2.f_bfree =
         (sdcardfs_statfs sbi lower_err buf).2.f_bavail)) ∧
    (sbi.reserved_mb ≠ 0 → buf.f_bsize = 0 →
      sdcardfs_statfs sbi lower_err buf = (-22, buf)) := by
  refine ⟨?_, ?_, ?_⟩
  · intro h0
    simp [sdcardfs_statfs, h0]
  · intro hR hB
    simp only [sdcardfs_statfs, if_pos hR, if_neg hB]
    exact ⟨by trivial, by trivial, by trivial, by trivial⟩
  · intro hR hB
    simp [sdcardfs_statfs, hR, hB]

/-- Claim C10 witness: with a failing lower query (status −5) the error is
propagated while the buffer is tagged and adjusted; with a zero block size the
lower-reported `f_type` survives. -/
theorem claim_C10_witness :
    ((sdcardfs_statfs opts_reserved (-5) buf_sample).1 = -5 ∧
     (sdcardfs_statfs opts_reserved (-5) buf_sample).2.f_type = SDCARDFS_SUPER_MAGIC ∧
     (sdcardfs_statfs opts_reserved (-5) buf_sample).2.f_blocks =
       buf_sample.f_blocks -
         ((opts_reserved.reserved_mb * 1024 * 1024 / buf_sample.f_bsize : Nat) : Int) ∧
     (sdcardfs_statfs opts_reserved (-5) buf_sample).2.f_bfree =
       (sdcardfs_statfs opts_reserved (-5) buf_sample).2.f_bavail) ∧
    sdcardfs_statfs opts_none 0 buf_sample =
      (0, { buf_sample with f_type := SDCARDFS_SUPER_MAGIC }) ∧
    sdcardfs_statfs opts_reserved (-5) buf_zero_bsize = (-22, buf_zero_bsize) :=
  ⟨(claim_C10 opts_reserved (-5) buf_sample).2.1 (by decide) (by decide),
   (claim_C10 opts_none 0 buf_sample).1 rfl,
   (claim_C10 opts_reserved (-5) buf_zero_bsize).2.2 (by decide) rfl⟩
